import Mathlib

/-!
Verification development for the Hackathon Orchestrator server
(`HackathonOrchestrator/core/server.py`, `core/main.py`,
`tools/communication_tools.py`).

The Python code is shallowly embedded as executable Lean definitions:

* dictionaries holding JSON-like data become the inductive `PyVal`;
* Python string truthiness (`or` / `if not x`) becomes `truthyOpt`;
* the in-memory candidate store (`CandidateStore`) becomes an
  insertion-ordered association list of `Candidate` records;
* exceptions become `Except PyErr`, HTTP error responses become `HttpErr`;
* the external Google-API provider (`CommunicationTools`) is a parameter
  (`FlowEnv`) supplying the results of `send_email`,
  `search_replies_by_ref_token` and `schedule_meeting` exactly at the
  call-site interface used by `server.py`; each call either returns a
  string or raises.  (Note: the repository's own
  `CommunicationTools.send_email` accepts only `(to, subject, body)` while
  `server.py` passes an extra `ref_token=` keyword, and
  `search_replies_by_ref_token` is not defined at all, so with the
  repository's provider every such call raises; the abstract environment
  subsumes this as the always-raising instantiation.)
* the event bus becomes an accumulating list of `Event`s; the
  single-consumer SSE stream is not needed by any claim;
* asyncio time advances only at `asyncio.sleep` points, so the polling
  loop of `run_full_outreach_flow.flow_task` performs exactly
  `ceil(windowMinutes*60 / pollEverySeconds)` passes when the poll
  interval is positive (for a zero interval the Python loop never
  terminates; theorems therefore carry the hypothesis `0 < pollInterval`).
-/

namespace HackOrch

/-- Python truthiness of an optional string: `None` and `""` are falsy.
`truthyOpt o` is `some s` exactly when `o` holds a non-empty string. -/
def truthyOpt : Option String → Option String
  | some s => if s = "" then none else some s
  | none => none

/-- Exceptions that the embedded code can raise. -/
inductive PyErr where
  | typeError
  | attributeError
  | keyError (field : String)
  | indexError
  | valueError
  | runtimeError (msg : String)
deriving DecidableEq

/-- An HTTP error response (`fastapi.HTTPException`). -/
structure HttpErr where
  status : Nat
  detail : String
deriving DecidableEq

/-- An error surfaced by an endpoint: either a deliberate `HTTPException`
or an uncaught Python exception escaping the handler (HTTP 500). -/
inductive EndpointErr where
  | http (e : HttpErr)
  | py (e : PyErr)
deriving DecidableEq

/-- JSON-like Python values (dict insertion order is kept). -/
inductive PyVal where
  | null
  | bool (b : Bool)
  | int (n : Int)
  | str (s : String)
  | list (xs : List PyVal)
  | dict (kvs : List (String × PyVal))

/-- Whether a dict value has the given key (`k in d`). -/
def PyVal.hasKey : PyVal → String → Bool
  | .dict kvs, k => kvs.any (fun kv => kv.1 == k)
  | _, _ => false

/-- The strings occurring as top-level string values of a dict or list
(used to state that a response value does not carry a given token). -/
def PyVal.topStrs : PyVal → List String
  | .str t => [t]
  | .list xs => xs.filterMap (fun x => match x with | .str t => some t | _ => none)
  | .dict kvs => kvs.filterMap (fun kv => match kv.2 with | .str t => some t | _ => none)
  | _ => []

/-- A record of the in-memory `CandidateStore` (`server.py:56-90`).
Every stored record has the four keys written by `load`; `name` can be
`None`, and `refToken` is present only after `set_ref`. -/
structure Candidate where
  name : Option String
  email : String
  expertise : String
  status : String
  refToken : Option String := none
deriving DecidableEq

/-- A partial candidate record as submitted to `load` (missing keys are
`none`; `dict.get` of a missing key is `None`). -/
structure PartialCandidate where
  name : Option String := none
  email : Option String := none
  expertise : Option String := none
  status : Option String := none
deriving DecidableEq

/-- The store itself: a Python dict keyed by email, i.e. an
insertion-ordered list of records with pairwise distinct emails
(assignment to an existing key keeps its position). -/
abbrev Store := List Candidate

/-- `self._store.get(email)`. -/
def storeFind (s : Store) (email : String) : Option Candidate :=
  s.find? (fun r => r.email == email)

/-- `self._store[email] = rec`: replace in place or append. -/
def storePut (s : Store) (email : String) (rec : Candidate) : Store :=
  if s.any (fun r => r.email == email) then
    s.map (fun r => if r.email == email then rec else r)
  else s ++ [rec]

namespace CandidateStore

/-- One iteration of the loop body of `CandidateStore.load`
(`server.py:62-75`): skip records with a falsy email, otherwise merge
field-by-field with `or`-defaulting into the existing record. -/
def loadOne (s : Store) (c : PartialCandidate) : Store :=
  match truthyOpt c.email with
  | none => s
  | some email =>
    let old := storeFind s email
    let oldName : Option String := match old with | some r => r.name | none => none
    let oldExp : String := match old with | some r => r.expertise | none => ""
    let oldSt : String := match old with | some r => r.status | none => "Sourced"
    let oldRef : Option String := match old with | some r => r.refToken | none => none
    let newRec : Candidate :=
      { name := match truthyOpt c.name with | some v => some v | none => oldName
        email := email
        expertise := (truthyOpt c.expertise).getD oldExp
        status := (truthyOpt c.status).getD oldSt
        refToken := oldRef }
    storePut s email newRec

/-- `CandidateStore.load` (`server.py:62-75`); returns the full store,
which is also the new store state. -/
def load (s : Store) (cs : List PartialCandidate) : Store :=
  cs.foldl loadOne s

/-- `CandidateStore.update_status` (`server.py:80-85`): returns the
updated record (or `none` for an unknown email) together with the new
store state. -/
def update_status (s : Store) (email status : String) : Option Candidate × Store :=
  match storeFind s email with
  | none => (none, s)
  | some r =>
    let r' := { r with status := status }
    (some r', s.map (fun x => if x.email == email then { x with status := status } else x))

/-- `CandidateStore.set_ref` (`server.py:87-89`): no-op for an unknown
email. -/
def set_ref (s : Store) (email ref : String) : Store :=
  s.map (fun r => if r.email == email then { r with refToken := some ref } else r)

end CandidateStore

/-! ### Spec-side registry merge

Used only to compare `CandidateStore.load` against the specification's
words (claim C4); translated from the spec, not from the code. -/

/-- Spec-side view of a candidate record in which "empty" and "missing"
field values are identified, as the spec's merge rule treats them
uniformly ("empty/missing values keep the prior value"). -/
structure SpecRec where
  name : Option String
  email : String
  expertise : Option String
  status : Option String
deriving DecidableEq

/-- Abstraction from a stored record to its spec-side view. -/
def toSpecRec (c : Candidate) : SpecRec :=
  { name := truthyOpt c.name
    email := c.email
    expertise := if c.expertise = "" then none else some c.expertise
    status := if c.status = "" then none else some c.status }

/-- Modelled from the spec: "new non-empty values overwrite old;
empty/missing values keep the prior value". -/
def specMergeField (newV oldV : Option String) : Option String :=
  match truthyOpt newV with
  | some v => some v
  | none => oldV

/-- Modelled from the spec: "for each record with a non-empty email,
merge field-by-field into any existing record keyed by email ...;
default `status` to `Sourced` if absent on first insert. ... Records
without an email are silently skipped." -/
def specMergeOne (reg : List SpecRec) (c : PartialCandidate) : List SpecRec :=
  match truthyOpt c.email with
  | none => reg
  | some em =>
    match reg.find? (fun r => r.email == em) with
    | some old =>
      let merged : SpecRec :=
        { name := specMergeField c.name old.name
          email := em
          expertise := specMergeField c.expertise old.expertise
          status := specMergeField c.status old.status }
      reg.map (fun r => if r.email == em then merged else r)
    | none =>
      reg ++ [{ name := truthyOpt c.name
                email := em
                expertise := truthyOpt c.expertise
                status := some ((truthyOpt c.status).getD "Sourced") }]

/-- Modelled from the spec: the field-wise last-write-wins merge, keyed
by email, over a flat sequence of submitted records. -/
def specLWW (recs : List PartialCandidate) : List SpecRec :=
  recs.foldl specMergeOne []

/-- Registry state after a sequence of `load` calls starting from the
empty store. -/
def loadCalls (calls : List (List PartialCandidate)) : Store :=
  calls.foldl CandidateStore.load []

/-! ### Modelled Python built-ins: `json.loads` and `str.format`

These model the standard-library functions the server uses, restricted
to the value shapes occurring here: JSON objects/arrays/strings/ints/
booleans/null (floats and `\u` escapes are rejected), and `str.format`
replacement fields that are plain field names without conversion or
format specifications (templates such as the server defaults).  Both are
fuel-driven to stay structurally recursive; the fuel (input length + 1)
always suffices because each step consumes at least one character. -/

/-- The double-quote character. -/
def quoteChar : Char := Char.ofNat 34

/-- The backslash character. -/
def backslashChar : Char := Char.ofNat 92

/-- The opening brace character. -/
def lbraceChar : Char := Char.ofNat 123

/-- The closing brace character. -/
def rbraceChar : Char := Char.ofNat 125

/-- JSON whitespace. -/
def isJsonWs (c : Char) : Bool :=
  c == ' ' || c == '\n' || c == '\t' || c == '\r'

/-- Drop leading JSON whitespace. -/
def dropWs (cs : List Char) : List Char := cs.dropWhile isJsonWs

/-- Parse the body of a JSON string after the opening quote. -/
def parseJStr : List Char → Option (String × List Char)
  | [] => none
  | c :: cs =>
    if c == quoteChar then some ("", cs)
    else if c == backslashChar then
      match cs with
      | [] => none
      | e :: cs2 =>
        let dec : Option Char :=
          if e == quoteChar then some quoteChar
          else if e == backslashChar then some backslashChar
          else if e == '/' then some '/'
          else if e == 'n' then some '\n'
          else if e == 't' then some '\t'
          else if e == 'r' then some '\r'
          else if e == 'b' then some (Char.ofNat 8)
          else if e == 'f' then some (Char.ofNat 12)
          else none
        match dec with
        | none => none
        | some d => (parseJStr cs2).map (fun p => (String.mk (d :: p.1.data), p.2))
    else (parseJStr cs).map (fun p => (String.mk (c :: p.1.data), p.2))

/-- Parse a JSON integer (floats are outside the modelled subset). -/
def parseJNum (cs : List Char) : Option (PyVal × List Char) :=
  let signed := match cs with
    | c :: rest => if c == '-' then (true, rest) else (false, cs)
    | [] => (false, cs)
  let digits := signed.2.takeWhile Char.isDigit
  let rest := signed.2.dropWhile Char.isDigit
  if digits = [] then none
  else
    let n : Nat := digits.foldl (fun a c => a * 10 + (c.toNat - 48)) 0
    let v : Int := if signed.1 then -(n : Int) else (n : Int)
    match rest with
    | c :: _ => if c == '.' || c == 'e' || c == 'E' then none else some (PyVal.int v, rest)
    | [] => some (PyVal.int v, rest)

/-- Parse the elements of a non-empty JSON array after the opening
bracket, given a parser for one value. -/
def parseArrTail (parse : List Char → Option (PyVal × List Char)) :
    Nat → List Char → Option (List PyVal × List Char)
  | 0, _ => none
  | fuel + 1, cs =>
    match parse cs with
    | none => none
    | some (v, rest) =>
      match dropWs rest with
      | c :: rest2 =>
        if c == ',' then (parseArrTail parse fuel rest2).map (fun p => (v :: p.1, p.2))
        else if c == ']' then some ([v], rest2)
        else none
      | [] => none

/-- Parse the members of a non-empty JSON object after the opening
brace, given a parser for one value. -/
def parseObjTail (parse : List Char → Option (PyVal × List Char)) :
    Nat → List Char → Option (List (String × PyVal) × List Char)
  | 0, _ => none
  | fuel + 1, cs =>
    match dropWs cs with
    | [] => none
    | c :: cs1 =>
      if c == quoteChar then
        match parseJStr cs1 with
        | none => none
        | some (k, r1) =>
          match dropWs r1 with
          | [] => none
          | d :: r2 =>
            if d == ':' then
              match parse r2 with
              | none => none
              | some (v, r3) =>
                match dropWs r3 with
                | [] => none
                | e :: r4 =>
                  if e == ',' then
                    (parseObjTail parse fuel r4).map (fun p => ((k, v) :: p.1, p.2))
                  else if e == rbraceChar then some ([(k, v)], r4)
                  else none
            else none
      else none

/-- Parse one JSON value. -/
def parseJson : Nat → List Char → Option (PyVal × List Char)
  | 0, _ => none
  | fuel + 1, cs =>
    match dropWs cs with
    | [] => none
    | c :: rest =>
      if c == quoteChar then (parseJStr rest).map (fun p => (PyVal.str p.1, p.2))
      else if c == '[' then
        match dropWs rest with
        | [] => none
        | d :: rest2 =>
          if d == ']' then some (PyVal.list [], rest2)
          else (parseArrTail (parseJson fuel) fuel (dropWs rest)).map
            (fun p => (PyVal.list p.1, p.2))
      else if c == lbraceChar then
        match dropWs rest with
        | [] => none
        | d :: rest2 =>
          if d == rbraceChar then some (PyVal.dict [], rest2)
          else (parseObjTail (parseJson fuel) fuel (dropWs rest)).map
            (fun p => (PyVal.dict p.1, p.2))
      else if c == 't' then
        if "rue".data.isPrefixOf rest then some (PyVal.bool true, rest.drop 3) else none
      else if c == 'f' then
        if "alse".data.isPrefixOf rest then some (PyVal.bool false, rest.drop 4) else none
      else if c == 'n' then
        if "ull".data.isPrefixOf rest then some (PyVal.null, rest.drop 3) else none
      else if c == '-' || c.isDigit then parseJNum (dropWs cs)
      else none

/-- `json.loads`, returning `none` where Python raises
`json.JSONDecodeError` (the server always wraps the call in
`try/except`). -/
def jsonLoads (s : String) : Option PyVal :=
  match parseJson (s.length + 1) s.data with
  | some (v, rest) => if dropWs rest = [] then some v else none
  | none => none

/-- Scan a replacement field up to the closing brace; `none` when the
brace is never closed (Python raises `ValueError`). -/
def fieldSplit : List Char → Option (List Char × List Char)
  | [] => none
  | c :: cs =>
    if c == rbraceChar then some ([], cs)
    else (fieldSplit cs).map (fun p => (c :: p.1, p.2))

/-- One pass of `str.format` with the single keyword argument `name`:
doubled braces are literals, the field `name` is substituted, any other
field raises (`KeyError` for a named field, `IndexError` for a
positional one), and an unmatched brace raises `ValueError`. -/
def formatChars (name : String) : Nat → List Char → Except PyErr (List Char)
  | 0, _ => .error .valueError
  | _ + 1, [] => .ok []
  | fuel + 1, c :: cs =>
    if c == lbraceChar then
      match cs with
      | [] => .error .valueError
      | c2 :: cs2 =>
        if c2 == lbraceChar then (formatChars name fuel cs2).map (fun l => lbraceChar :: l)
        else
          match fieldSplit (c2 :: cs2) with
          | none => .error .valueError
          | some (fld, rest) =>
            if fld = "name".data then (formatChars name fuel rest).map (fun l => name.data ++ l)
            else if fld = [] then .error .indexError
            else .error (.keyError (String.mk fld))
    else if c == rbraceChar then
      match cs with
      | [] => .error .valueError
      | c2 :: cs2 =>
        if c2 == rbraceChar then (formatChars name fuel cs2).map (fun l => rbraceChar :: l)
        else .error .valueError
    else (formatChars name fuel cs).map (fun l => c :: l)

/-- `template.format(name=name)` as used at `server.py:505`, `:613` and
`:283`. -/
def pyFormat (template name : String) : Except PyErr String :=
  (formatChars name (template.length + 1) template.data).map String.mk

/-! ### Correlation token derivation -/

/-- The process-wide Python string-pair hash: `hash((email, subject))`.
It is an arbitrary but fixed function of the pair for the lifetime of
the process (Python randomizes it per process, not per call). -/
abbrev HashFn := String → String → Int

/-- Hex digit characters, lowercase, as produced by the format spec
`x`. -/
def hexDigitChar (n : Nat) : Char :=
  if n < 10 then Char.ofNat (48 + n) else Char.ofNat (87 + n)

/-- Hex digits of `n`, least significant first (fuel-driven; `n + 1`
digits always suffice). -/
def natToHexAux : Nat → Nat → List Char
  | 0, _ => []
  | fuel + 1, n => if n = 0 then [] else hexDigitChar (n % 16) :: natToHexAux fuel (n / 16)

/-- Python `f"{n:x}"` for a non-negative integer. -/
def natToHex (n : Nat) : String :=
  if n = 0 then "0" else String.mk (natToHexAux (n + 1) n).reverse

/-- Python `i & 0xfffffff`: for this all-ones mask the bitwise AND is
reduction modulo `2 ^ 28`, non-negative for any Python int. -/
def mask28 (i : Int) : Nat := (i % (2 ^ 28 : Int)).toNat

/-- The token expression at `server.py:504`
(`f"{hash((email, subject)) & 0xfffffff:x}"` in `send_outreach`). -/
def refTokenSendOutreach (h : HashFn) (email subject : String) : String :=
  natToHex (mask28 (h email subject))

/-- The token expression at `server.py:612` (in
`run_full_outreach_flow.flow_task`). -/
def refTokenRunFlow (h : HashFn) (email subject : String) : String :=
  natToHex (mask28 (h email subject))

/-- The token expression at `server.py:286` (in
`send_individual_email`). -/
def refTokenSendIndividual (h : HashFn) (email subject : String) : String :=
  natToHex (mask28 (h email subject))

/-! ### Events -/

/-- The candidate view emitted in `candidates` events. -/
structure CandView where
  name : Option String
  email : String
  expertise : String
  status : String
deriving DecidableEq

/-- An event published on the bus (`bus.emit(event, data)`), tagged with
its kind and payload.  `candidate_status` payloads are keyed by email in
the flow/demo endpoints and by index in `/run`'s callbacks.  The `done`
payload is `{"ok": b}` plus, for the flow engine, the scheduled list. -/
inductive Event where
  | log (message : String)
  | candidates (recs : List CandView)
  | statusEmail (email status : String)
  | statusIndex (index : Nat) (status : String)
  | done (ok : Bool) (scheduled : Option (List PyVal))

/-- Whether an event is a `done` event. -/
def Event.isDone : Event → Bool
  | .done _ _ => true
  | _ => false

/-- Number of `done` events in a stream. -/
def doneCount (evs : List Event) : Nat :=
  (evs.filter Event.isDone).length

/-- Whether an event is a `candidates` event. -/
def Event.isCandidates : Event → Bool
  | .candidates _ => true
  | _ => false

/-- Whether an event is a `candidate_status` event carrying the given
status. -/
def Event.isStatus (st : String) : Event → Bool
  | .statusEmail _ s => s == st
  | .statusIndex _ s => s == st
  | _ => false

/-- Whether an event is a `candidate_status -> Contacted` event for the
given email. -/
def Event.isContactedEmail (email : String) : Event → Bool
  | .statusEmail e s => e == email && s == "Contacted"
  | _ => false

/-- The view of the full store emitted by `/candidates/load`
(`server.py:673-676`). -/
def storeView (s : Store) : List CandView :=
  s.map (fun r => { name := r.name, email := r.email, expertise := r.expertise, status := r.status })

/-! ### Simple endpoints -/

/-- Result of `POST /candidates/load`. -/
structure LoadCandidatesRes where
  ok : Bool
  count : Nat
  store : Store
  events : List Event

/-- `load_candidates` (`server.py:668-677`): merge into the store, emit
a `candidates` event with the full store, return its size as `count`. -/
def load_candidates (s : Store) (cands : List PartialCandidate) : LoadCandidatesRes :=
  let allRecs := CandidateStore.load s cands
  { ok := true
    count := allRecs.length
    store := allRecs
    events := [.candidates (storeView allRecs)] }

/-- Result of `PATCH /candidates/{email}/status`. -/
structure PatchStatusRes where
  resp : Except HttpErr Candidate
  store : Store
  events : List Event

/-- `update_candidate_status` (`server.py:685-692`): 404 when the store
returns `None`, otherwise emit `candidate_status` and return the
record. -/
def update_candidate_status (s : Store) (email status : String) : PatchStatusRes :=
  match CandidateStore.update_status s email status with
  | (none, s') => { resp := .error ⟨404, "candidate not found"⟩, store := s', events := [] }
  | (some rec, s') => { resp := .ok rec, store := s', events := [.statusEmail email status] }

/-! ### The provider environment and the outreach flow -/

/-- The external provider exactly at the call-site interface used by
`server.py`: `send to subject body refToken`, `searchReplies refToken`,
`schedule attendees summary description duration timezone`.  Each call
returns a string (or message list) or raises.  The repository's own
`CommunicationTools` corresponds to the instantiation in which every
`send` call raises `TypeError` (it does not accept the `ref_token`
keyword the server passes) and every `searchReplies` call raises
`AttributeError` (no such method exists). -/
structure FlowEnv where
  hash2 : HashFn
  send : String → String → String → String → Except PyErr String
  searchReplies : String → Except PyErr (List String)
  schedule : List String → String → String → Int → Option String → Except PyErr String

/-- Result of `POST /outreach/send`: the response (the `sent` list on
success), plus the store and events, which keep any mutations made
before an exception aborted the handler. -/
structure OutreachSendRes where
  resp : Except EndpointErr (List PyVal)
  store : Store
  events : List Event

/-- The per-candidate loop of `send_outreach` (`server.py:499-514`):
skip a candidate without an email; render the template (an exception
propagates); send (an exception propagates); append the parsed result or
the `{"ok": False, "to": email}` fallback; track the candidate as
`Contacted` with its token; emit `candidate_status`. -/
def sendOutreachLoop (env : FlowEnv) (subject template : String) :
    List PartialCandidate → Store → List Event → List PyVal →
    Store × List Event × List PyVal × Option PyErr
  | [], s, evs, results => (s, evs, results, none)
  | c :: cs, s, evs, results =>
    let name := (truthyOpt c.name).getD "there"
    match truthyOpt c.email with
    | none => sendOutreachLoop env subject template cs s evs results
    | some email =>
      let ref := refTokenSendOutreach env.hash2 email subject
      match pyFormat template name with
      | .error e => (s, evs, results, some e)
      | .ok body =>
        match env.send email subject body ref with
        | .error e => (s, evs, results, some e)
        | .ok res =>
          let parsed : PyVal :=
            (jsonLoads res).getD (.dict [("ok", .bool false), ("to", .str email)])
          let results := results ++ [parsed]
          let s := CandidateStore.load s
            [{ name := some name, email := some email, status := some "Contacted" }]
          let s := CandidateStore.set_ref s email ref
          let evs := evs ++ [.statusEmail email "Contacted"]
          sendOutreachLoop env subject template cs s evs results

/-- `send_outreach` (`server.py:478-515`): 400 for an empty candidate
list, otherwise run the loop; an exception escaping the loop aborts the
handler (HTTP 500) with the mutations so far kept. -/
def send_outreach (env : FlowEnv) (subject template : String)
    (cands : List PartialCandidate) (s : Store) : OutreachSendRes :=
  match cands with
  | [] => { resp := .error (.http ⟨400, "candidates required"⟩), store := s, events := [] }
  | _ :: _ =>
    match sendOutreachLoop env subject template cands s [] [] with
    | (s', evs, results, none) => { resp := .ok results, store := s', events := evs }
    | (s', evs, _, some e) => { resp := .error (.py e), store := s', events := evs }

/-- An entry of the `enriched` list built by the flow's sending step. -/
structure EnrichedC where
  name : String
  email : String
  refToken : String
  sendRes : PyVal
  resolved : Bool

/-- Result of the flow's sending step. -/
structure SendPhaseRes where
  store : Store
  events : List Event
  enriched : List EnrichedC
  err : Option PyErr

/-- The sending step of `run_full_outreach_flow.flow_task`
(`server.py:606-624`): like `sendOutreachLoop` but building the
`enriched` list (whose fallback send result also records the token) and
emitting a `log` event after each `candidate_status`. -/
def sendPhase (env : FlowEnv) (subject template : String) :
    List PartialCandidate → Store → List Event → List EnrichedC → SendPhaseRes
  | [], s, evs, acc => ⟨s, evs, acc, none⟩
  | c :: cs, s, evs, acc =>
    let name := (truthyOpt c.name).getD "there"
    match truthyOpt c.email with
    | none => sendPhase env subject template cs s evs acc
    | some email =>
      let ref := refTokenRunFlow env.hash2 email subject
      match pyFormat template name with
      | .error e => ⟨s, evs, acc, some e⟩
      | .ok body =>
        match env.send email subject body ref with
        | .error e => ⟨s, evs, acc, some e⟩
        | .ok resJson =>
          let res : PyVal := (jsonLoads resJson).getD
            (.dict [("ok", .bool false), ("to", .str email), ("refToken", .str ref)])
          let acc := acc ++ [⟨name, email, ref, res, false⟩]
          let s := CandidateStore.load s
            [{ name := some name, email := some email, status := some "Contacted" }]
          let s := CandidateStore.set_ref s email ref
          let evs := evs ++ [.statusEmail email "Contacted",
                             .log ("[Outreach] Sent to " ++ name ++ " <" ++ email ++ ">")]
          sendPhase env subject template cs s evs acc

/-- The `candidates` event the flow emits after sending
(`server.py:626-629`). -/
def candidatesEvent (enr : List EnrichedC) : Event :=
  .candidates (enr.map (fun e => ⟨some e.name, e.email, "", "Contacted"⟩))

/-- Parameters of one `POST /outreach/run-flow` invocation (after the
payload defaulting of `server.py:592-600`). -/
structure RunParams where
  subject : String
  template : String
  candidates : List PartialCandidate
  windowMinutes : Nat
  pollInterval : Nat
  summary : String
  description : String
  duration : Int
  tz : Option String

/-- Result of the polling phase. -/
structure PollRes where
  enriched : List EnrichedC
  store : Store
  events : List Event
  scheduled : List PyVal
  err : Option PyErr

/-- `dict[k] = v`: update in place or append. -/
def dictInsert (kvs : List (String × PyVal)) (k : String) (v : PyVal) :
    List (String × PyVal) :=
  if kvs.any (fun kv => kv.1 == k) then
    kvs.map (fun kv => if kv.1 == k then (k, v) else kv)
  else kvs ++ [(k, v)]

/-- Python dict union `{**a, **b}`. -/
def dictMerge (a b : List (String × PyVal)) : List (String × PyVal) :=
  b.foldl (fun acc kv => dictInsert acc kv.1 kv.2) a

/-- One pass of the polling loop over the `enriched` list
(`server.py:635-657`): skip resolved entries; look up replies by the
stored token (an exception propagates); on a non-empty reply log,
schedule (an exception propagates), parse the meeting JSON with a
`{"eventId": None}` fallback, mark the entry resolved, append the
scheduling outcome, mark the candidate `Accepted` and emit events. -/
def pollPass (env : FlowEnv) (p : RunParams) :
    List EnrichedC → Store → List Event → List PyVal → PollRes
  | [], s, evs, sch => ⟨[], s, evs, sch, none⟩
  | e :: rest, s, evs, sch =>
    if e.resolved then
      let r := pollPass env p rest s evs sch
      { r with enriched := e :: r.enriched }
    else
      match env.searchReplies e.refToken with
      | .error er => ⟨e :: rest, s, evs, sch, some er⟩
      | .ok [] =>
        let r := pollPass env p rest s evs sch
        { r with enriched := e :: r.enriched }
      | .ok (_ :: _) =>
        let evs := evs ++ [.log ("[Outreach] Reply detected from " ++ e.email)]
        match env.schedule [e.email] p.summary p.description p.duration p.tz with
        | .error er => ⟨e :: rest, s, evs, sch, some er⟩
        | .ok meetJson =>
          match (jsonLoads meetJson).getD (.dict [("eventId", .null)]) with
          | .dict kvs =>
            let e' := { e with resolved := true }
            let sch := sch ++ [.dict (dictMerge [("email", .str e.email)] kvs)]
            let s := (CandidateStore.update_status s e.email "Accepted").2
            let evs := evs ++ [.statusEmail e.email "Accepted",
                               .log ("[Scheduling] Meeting created for " ++ e.email)]
            let r := pollPass env p rest s evs sch
            { r with enriched := e' :: r.enriched }
          | _ => ⟨e :: rest, s, evs, sch, some .typeError⟩

/-- Number of passes of the polling loop: the loop starts at the current
time, stops once `windowSeconds` have elapsed, and each pass ends with a
sleep of `interval` seconds (calls themselves advance no model time), so
for `interval ≥ 1` exactly `ceil(windowSeconds / interval)` passes run.
For `interval = 0` the Python loop never terminates; theorems about the
flow therefore assume `0 < interval`. -/
def numPasses (windowSeconds interval : Nat) : Nat :=
  (windowSeconds + interval - 1) / interval

/-- The time-boxed polling loop (`server.py:632-658`), iterated for the
computed number of passes, stopping early when a pass raised. -/
def pollLoop (env : FlowEnv) (p : RunParams) :
    Nat → List EnrichedC → Store → List Event → List PyVal → PollRes
  | 0, enr, s, evs, sch => ⟨enr, s, evs, sch, none⟩
  | n + 1, enr, s, evs, sch =>
    let r := pollPass env p enr s evs sch
    match r.err with
    | some _ => r
    | none => pollLoop env p n r.enriched r.store r.events r.scheduled

/-- The outcome of one `flow_task` run: the events published, the final
store, the scheduled list, the exception that escaped the `try` body (if
any), and the run-active flag immediately after the task (the `finally`
clears it on every path; note that the `done` emission is inside the
`try`, not in the `finally`). -/
structure FlowResult where
  events : List Event
  store : Store
  scheduled : List PyVal
  err : Option PyErr
  activeAfter : Bool

/-- `run_full_outreach_flow.flow_task` (`server.py:602-662`). -/
def flowTask (env : FlowEnv) (p : RunParams) (s0 : Store) : FlowResult :=
  let evs0 : List Event := [.log "[Outreach] Starting outreach flow"]
  let sp := sendPhase env p.subject p.template p.candidates s0 evs0 []
  match sp.err with
  | some e =>
    { events := sp.events, store := sp.store, scheduled := [], err := some e
      activeAfter := false }
  | none =>
    let evs2 := sp.events ++ [candidatesEvent sp.enriched]
    let pr := pollLoop env p (numPasses (p.windowMinutes * 60) p.pollInterval)
      sp.enriched sp.store evs2 []
    match pr.err with
    | some e =>
      { events := pr.events, store := pr.store, scheduled := pr.scheduled
        err := some e, activeAfter := false }
    | none =>
      { events := pr.events ++ [.done true (some pr.scheduled)], store := pr.store
        scheduled := pr.scheduled, err := none, activeAfter := false }

/-! ### Run guards and the demo sequencer -/

/-- The concurrency guard of `start_run` (`server.py:95-100`): 409 while
a run is active (before any other effect), otherwise set the flag and
start the run. -/
def start_run_guard (active : Bool) (s : Store) : Except HttpErr Unit × Store × Bool :=
  if active then (.error ⟨409, "A run is already in progress"⟩, s, active)
  else (.ok (), s, true)

/-- The concurrency guard of `run_full_outreach_flow`
(`server.py:586-589`), identical to the `/run` guard. -/
def run_flow_guard (active : Bool) (s : Store) : Except HttpErr Unit × Store × Bool :=
  if active then (.error ⟨409, "A run is already in progress"⟩, s, active)
  else (.ok (), s, true)

/-- Result of `POST /demo/start-outreach`. -/
structure DemoStartRes where
  ok : Bool
  startsSim : Bool
  events : List Event
  store : Store
  active : Bool

/-- `demo_start_outreach` (`server.py:194-202`): no run-active check at
all — with a non-empty store it always starts a simulated outreach task
and reports `ok`, leaving the flag untouched. -/
def demo_start_outreach (active : Bool) (s : Store) : DemoStartRes :=
  match s with
  | [] =>
    { ok := false, startsSim := false
      events := [.log "[Outreach] No candidates loaded.", .done false none]
      store := s, active := active }
  | _ :: _ =>
    { ok := true, startsSim := true, events := [], store := s, active := active }

/-- One row of `contacts.csv` as returned by `_read_contacts_csv`
(`server.py:177-191`): fields stripped, rows without an email already
dropped, status fixed to `Sourced`.  The parsed file contents are a
parameter of the embedding (reading the file itself is I/O). -/
structure CsvContact where
  name : String
  email : String
  expertise : String
deriving DecidableEq

/-- A CSV row as submitted to `CandidateStore.load`
(`server.py:190`). -/
def csvToPartial (c : CsvContact) : PartialCandidate :=
  { name := some c.name, email := some c.email, expertise := some c.expertise
    status := some "Sourced" }

/-- A CSV row as handed to `_simulate_outreach_sequence`
(`server.py:228`; the simulation reads only `name` and `email`). -/
def csvToCand (c : CsvContact) : Candidate :=
  { name := some c.name, email := c.email, expertise := c.expertise, status := "Sourced" }

/-- Python substring containment `needle in hay`. -/
def strContains (hay needle : String) : Bool :=
  (List.range (hay.data.length + 1)).any (fun i => needle.data.isPrefixOf (hay.data.drop i))

/-- Python `str.lower()` (modelled character-wise; the repository's
topics and expertise strings are ASCII). -/
def strToLower (s : String) : String := String.mk (s.data.map Char.toLower)

/-- Result of `GET /demo/run-topic`. -/
structure DemoRunTopicRes where
  ok : Bool
  count : Nat
  startsSim : Bool
  sim : List Candidate
  events : List Event
  store : Store
  active : Bool

/-- `demo_run_topic` (`server.py:205-229`), with the parsed
`contacts.csv` rows as a parameter: with no rows it emits a log and
`done(ok=False)`; otherwise — with no run-active check at all — it
filters the rows by topic substring over the lowercased expertise
(falling back to all rows on no match), loads them into the store,
emits a log and a `candidates` event, starts
`_simulate_outreach_sequence` on the filtered rows and reports ok with
their count, never touching the run-active flag. -/
def demo_run_topic (contacts : List CsvContact) (topic : String) (active : Bool)
    (s : Store) : DemoRunTopicRes :=
  match contacts with
  | [] =>
    { ok := false, count := 0, startsSim := false, sim := []
      events := [.log "[SourcingAgent] No contacts.csv found.", .done false none]
      store := s, active := active }
  | _ :: _ =>
    let t := strToLower topic
    let filtered0 := contacts.filter (fun c => strContains (strToLower c.expertise) t)
    let filtered := if filtered0 = [] then contacts else filtered0
    let s' := CandidateStore.load s (filtered.map csvToPartial)
    { ok := true, count := filtered.length, startsSim := true
      sim := filtered.map csvToCand
      events := [.log "[SourcingAgent] Found candidates from CSV.",
                 .candidates (storeView s')]
      store := s', active := active }

/-- `candidate["name"]` rendered into an f-string (a stored `None`
prints as `None`). -/
def pyShowName (n : Option String) : String := n.getD "None"

/-- `_simulate_outreach_sequence` (`server.py:150-174`): contact every
candidate, accept the first, finish with `done`. -/
def simulateOutreachSequence (enriched : List Candidate) (s : Store) :
    List Event × Store :=
  let start : List Event × Store :=
    ([.log "[SchedulingAgent] Initializing outreach sequence..."], s)
  let contacted := enriched.foldl
    (fun (acc : List Event × Store) e =>
      (acc.1 ++ [.log ("[SchedulingAgent] Sending outreach email to " ++ pyShowName e.name ++ "."),
                 .statusEmail e.email "Contacted"],
       (CandidateStore.update_status acc.2 e.email "Contacted").2))
    start
  let accepted : List Event × Store := match enriched with
    | [] => contacted
    | first :: _ =>
      (contacted.1 ++
         [.log ("[SchedulingAgent] Received positive reply from " ++ pyShowName first.name ++
                ". Scheduling meeting."),
          .statusEmail first.email "Accepted"],
       (CandidateStore.update_status contacted.2 first.email "Accepted").2)
  (accepted.1 ++ [.log "[SchedulingAgent] Task complete.", .done true none], accepted.2)

/-! ### The `/run` demo orchestrator (`core/main.py`) -/

/-- An emission made by `run_orchestrator` through the callbacks wired
up by `start_run` (`server.py:104-114`); the callbacks can only produce
`log`, `candidates` and index-keyed `candidate_status` events. -/
inductive OrchEvent where
  | log (message : String)
  | candidates (recs : List CandView)
  | status (index : Nat) (st : String)

/-- How `start_run`'s callbacks forward an orchestrator emission to the
bus. -/
def orchToEvent : OrchEvent → Event
  | .log m => .log m
  | .candidates r => .candidates r
  | .status i st => .statusIndex i st

/-- The hardcoded candidate list of the dummy orchestrator
(`core/main.py:38-42`). -/
def mockResults : List CandView :=
  [{ name := some "Dr. Evelyn Reed", email := "e.reed@example.com"
     expertise := "Quantum Computing", status := "Sourced" },
   { name := some "Marco Jin", email := "m.jin@example.com"
     expertise := "AI in FinTech", status := "Sourced" },
   { name := some "Anya Sharma", email := "a.sharma@example.com"
     expertise := "Decentralized Science", status := "Sourced" }]

/-- `candidate["name"]` of a mock record (always present there). -/
def mockName (c : CandView) : String := c.name.getD ""

/-- The emissions of `run_orchestrator` on its DUMMY (simulated) branch
(`core/main.py:30-80`), in order. -/
def runOrchestratorDummy (topic : String) : List OrchEvent :=
  [.log ("--- Launching Orchestrator for topic: " ++ topic ++ " ---"),
   .log "Running in DUMMY mode (no external LLM calls).",
   .log "[SourcingAgent] Starting search...",
   .log "[SourcingAgent] Found 3 potential candidates.",
   .candidates mockResults,
   .log "[SourcingAgent] Task complete. Passing results to SchedulingAgent.",
   .log "[SchedulingAgent] Initializing outreach sequence..."]
  ++ (mockResults.enum.map (fun p =>
        [OrchEvent.log ("[SchedulingAgent] Sending outreach email to " ++ mockName p.2 ++ "."),
         OrchEvent.status p.1 "Contacted"])).flatten
  ++ [.log "[SchedulingAgent] Received positive reply from Dr. Evelyn Reed. Scheduling meeting.",
      .status 0 "Accepted",
      .log "[SchedulingAgent] Task complete.",
      .log "--- Crew Run Complete (Simulated) ---"]

/-- `start_run.run_in_thread` (`server.py:116-131`): forward the
orchestrator's emissions, then — in a `finally`, on every exit path,
whether or not the orchestrator raised — emit exactly one `done` and
clear the run-active flag.  Returns the event stream and the flag. -/
def run_in_thread (orch : List OrchEvent) : List Event × Bool :=
  (orch.map orchToEvent ++ [.done true none], false)

/-- The full event stream of a `/run` demo run. -/
def startRunDemoEvents (topic : String) : List Event :=
  (run_in_thread (runOrchestratorDummy topic)).1

/-! ### Concrete fixtures used by the claim theorems -/

/-- A partial candidate with a name and an email. -/
def adaPartial : PartialCandidate := { name := some "Ada", email := some "ada@x.com" }

/-- A second partial candidate with a name and an email. -/
def bobPartial : PartialCandidate := { name := some "Bob", email := some "bob@x.com" }

/-- A stored candidate record as created by loading `adaPartial`. -/
def adaStored : Candidate :=
  { name := some "Ada", email := "ada@x.com", expertise := "", status := "Sourced" }

/-! ### Helper lemmas -/

theorem doneCount_append (a b : List Event) :
    doneCount (a ++ b) = doneCount a + doneCount b := by
  simp [doneCount, List.filter_append]

theorem doneCount_map_orch (orch : List OrchEvent) :
    doneCount (orch.map orchToEvent) = 0 := by
  induction orch with
  | nil => rfl
  | cons e t ih =>
    cases e <;> simpa [doneCount, orchToEvent, Event.isDone] using ih

theorem sendPhase_doneCount (env : FlowEnv) (subject template : String)
    (cs : List PartialCandidate) (s : Store) (evs : List Event) (acc : List EnrichedC) :
    doneCount (sendPhase env subject template cs s evs acc).events = doneCount evs := by
  induction cs generalizing s evs acc with
  | nil => rfl
  | cons c t ih =>
    rcases hem : truthyOpt c.email with _ | email
    · simp only [sendPhase, hem]
      exact ih s evs acc
    · rcases hfmt : pyFormat template ((truthyOpt c.name).getD "there") with e | body
      · simp only [sendPhase, hem, hfmt]
      · rcases hsend : env.send email subject body (refTokenRunFlow env.hash2 email subject)
          with e | resJson
        · simp only [sendPhase, hem, hfmt, hsend]
        · simp only [sendPhase, hem, hfmt, hsend]
          rw [ih]
          simp [doneCount_append, doneCount, Event.isDone]

theorem pollPass_doneCount (env : FlowEnv) (p : RunParams)
    (enr : List EnrichedC) (s : Store) (evs : List Event) (sch : List PyVal) :
    doneCount (pollPass env p enr s evs sch).events = doneCount evs := by
  induction enr generalizing s evs sch with
  | nil => rfl
  | cons e rest ih =>
    cases hres : e.resolved with
    | true =>
      simp only [pollPass, hres, if_true]
      exact ih s evs sch
    | false =>
      rcases hsr : env.searchReplies e.refToken with er | msgs
      · simp only [pollPass, hres, Bool.false_eq_true, if_false, hsr]
      · cases msgs with
        | nil =>
          simp only [pollPass, hres, Bool.false_eq_true, if_false, hsr]
          exact ih s evs sch
        | cons m ms =>
          rcases hsch : env.schedule [e.email] p.summary p.description p.duration p.tz
            with er | meetJson
          · simp only [pollPass, hres, Bool.false_eq_true, if_false, hsr, hsch]
            simp [doneCount_append, doneCount, Event.isDone]
          · cases hmeet : (jsonLoads meetJson).getD (.dict [("eventId", .null)]) with
            | dict kvs =>
              simp only [pollPass, hres, Bool.false_eq_true, if_false, hsr, hsch, hmeet]
              rw [ih]
              simp [doneCount_append, doneCount, Event.isDone]
            | null =>
              simp only [pollPass, hres, Bool.false_eq_true, if_false, hsr, hsch, hmeet]
              simp [doneCount_append, doneCount, Event.isDone]
            | bool b =>
              simp only [pollPass, hres, Bool.false_eq_true, if_false, hsr, hsch, hmeet]
              simp [doneCount_append, doneCount, Event.isDone]
            | int n =>
              simp only [pollPass, hres, Bool.false_eq_true, if_false, hsr, hsch, hmeet]
              simp [doneCount_append, doneCount, Event.isDone]
            | str st =>
              simp only [pollPass, hres, Bool.false_eq_true, if_false, hsr, hsch, hmeet]
              simp [doneCount_append, doneCount, Event.isDone]
            | list xs =>
              simp only [pollPass, hres, Bool.false_eq_true, if_false, hsr, hsch, hmeet]
              simp [doneCount_append, doneCount, Event.isDone]

theorem pollLoop_doneCount (env : FlowEnv) (p : RunParams) (n : Nat)
    (enr : List EnrichedC) (s : Store) (evs : List Event) (sch : List PyVal) :
    doneCount (pollLoop env p n enr s evs sch).events = doneCount evs := by
  induction n generalizing enr s evs sch with
  | zero => rfl
  | succ m ih =>
    simp only [pollLoop]
    cases herr : (pollPass env p enr s evs sch).err with
    | some e => rw [pollPass_doneCount]
    | none => rw [ih, pollPass_doneCount]

theorem sendPhase_tokens (env : FlowEnv) (subject template : String)
    (cs : List PartialCandidate) (s : Store) (evs : List Event) (acc : List EnrichedC)
    (hacc : acc.all (fun en => en.refToken == refTokenRunFlow env.hash2 en.email subject) = true) :
    ((sendPhase env subject template cs s evs acc).enriched).all
      (fun en => en.refToken == refTokenRunFlow env.hash2 en.email subject) = true := by
  induction cs generalizing s evs acc with
  | nil => exact hacc
  | cons c t ih =>
    rcases hem : truthyOpt c.email with _ | email
    · simp only [sendPhase, hem]
      exact ih s evs acc hacc
    · rcases hfmt : pyFormat template ((truthyOpt c.name).getD "there") with e | body
      · simp only [sendPhase, hem, hfmt]
        exact hacc
      · rcases hsend : env.send email subject body (refTokenRunFlow env.hash2 email subject)
          with e | resJson
        · simp only [sendPhase, hem, hfmt, hsend]
          exact hacc
        · simp only [sendPhase, hem, hfmt, hsend]
          apply ih
          simp [List.all_append, hacc]

/-! ### Claim theorems -/

/-- C3 (amended part): starting a run via `POST /run` or
`POST /outreach/run-flow` while the run-active flag is set is rejected
with a 409 conflict that alters neither the candidate store nor the
flag; the demo triggers, however, perform no run-active check and never
set the flag: `POST /demo/start-outreach` with a non-empty store, and
`GET /demo/run-topic` with a non-empty parsed `contacts.csv`, report ok
and start a simulated outreach run regardless of the flag. -/
theorem run_guards_and_demo :
    (∀ s : Store,
        start_run_guard true s = (.error ⟨409, "A run is already in progress"⟩, s, true)) ∧
    (∀ s : Store,
        run_flow_guard true s = (.error ⟨409, "A run is already in progress"⟩, s, true)) ∧
    (∀ (active : Bool) (c : Candidate) (s : Store),
        (demo_start_outreach active (c :: s)).ok = true ∧
        (demo_start_outreach active (c :: s)).startsSim = true ∧
        (demo_start_outreach active (c :: s)).store = c :: s ∧
        (demo_start_outreach active (c :: s)).active = active) ∧
    (∀ (active : Bool) (c : CsvContact) (cs : List CsvContact) (topic : String) (s : Store),
        (demo_run_topic (c :: cs) topic active s).ok = true ∧
        (demo_run_topic (c :: cs) topic active s).startsSim = true ∧
        (demo_run_topic (c :: cs) topic active s).active = active) :=
  ⟨fun _ => rfl, fun _ => rfl, fun _ _ _ => ⟨rfl, rfl, rfl, rfl⟩,
   fun _ _ _ _ _ => ⟨rfl, rfl, rfl⟩⟩

/-- C3 counterexample: with the run-active flag set and three loaded
candidates, the demo trigger is not rejected with a conflict — it
reports ok, starts the simulated run (which publishes events up to its
own `done`), and leaves the flag set. -/
def demoStoreC3 : Store :=
  [adaStored,
   { name := some "Bob", email := "bob@x.com", expertise := "", status := "Sourced" },
   { name := some "Cara", email := "cara@x.com", expertise := "", status := "Sourced" }]

/-- C3: the claim "starting a run via a demo trigger while the run-active
flag is set is rejected with a conflict (409)" is false at these inputs:
with the flag set, `POST /demo/start-outreach` on a three-candidate
store and `GET /demo/run-topic` on a one-row `contacts.csv` both report
ok, start the simulated run (which itself runs to its own `done`), and
leave the flag untouched. -/
theorem demo_trigger_ignores_active_flag :
    (demo_start_outreach true demoStoreC3).ok = true ∧
    (demo_start_outreach true demoStoreC3).startsSim = true ∧
    (demo_start_outreach true demoStoreC3).active = true ∧
    (simulateOutreachSequence demoStoreC3 demoStoreC3).1.getLast? = some (.done true none) ∧
    doneCount (simulateOutreachSequence demoStoreC3 demoStoreC3).1 = 1 ∧
    (demo_run_topic [⟨"Ada", "ada@x.com", "AI in FinTech"⟩] "ai" true []).ok = true ∧
    (demo_run_topic [⟨"Ada", "ada@x.com", "AI in FinTech"⟩] "ai" true []).startsSim = true ∧
    (demo_run_topic [⟨"Ada", "ada@x.com", "AI in FinTech"⟩] "ai" true []).active = true ∧
    (demo_run_topic [⟨"Ada", "ada@x.com", "AI in FinTech"⟩] "ai" true []).count = 1 :=
  ⟨rfl, rfl, rfl, rfl, rfl, rfl, rfl, rfl, rfl⟩

/-- C8: a `/run` demo (simulated) run emits one `candidates` event with
exactly the three mock records, a `candidate_status -> Contacted` event
for each of their indices, exactly one `candidate_status -> Accepted`
event whose subject is index 0 — the first candidate of the emitted
list — and its event stream ends with `done`. -/
theorem demo_run_event_contract :
    ∀ topic : String,
      (startRunDemoEvents topic).filter Event.isCandidates = [.candidates mockResults] ∧
      mockResults.length = 3 ∧
      (startRunDemoEvents topic).filter (Event.isStatus "Contacted") =
        [.statusIndex 0 "Contacted", .statusIndex 1 "Contacted", .statusIndex 2 "Contacted"] ∧
      (startRunDemoEvents topic).filter (Event.isStatus "Accepted") =
        [.statusIndex 0 "Accepted"] ∧
      (startRunDemoEvents topic).getLast? = some (.done true none) :=
  fun _ => ⟨rfl, rfl, rfl, rfl, rfl⟩

/-- C9: the correlation token is the same deterministic pure function of
`(hash, email, subject)` at all three sites computing it, and every
entry of the flow's `enriched` list — the value later used for the
reply look-up — carries exactly the token derived from its email and the
run's subject at send time. -/
theorem token_deterministic :
    (∀ (h : HashFn) (email subject : String),
        refTokenSendOutreach h email subject = refTokenRunFlow h email subject ∧
        refTokenRunFlow h email subject = refTokenSendIndividual h email subject) ∧
    (∀ (env : FlowEnv) (subject template : String) (cs : List PartialCandidate) (s : Store),
        ((sendPhase env subject template cs s [] []).enriched).all
          (fun en => en.refToken == refTokenRunFlow env.hash2 en.email subject) = true) :=
  ⟨fun _ _ _ => ⟨rfl, rfl⟩,
   fun env subject template cs s => sendPhase_tokens env subject template cs s [] [] rfl⟩

/-- A submitted record without any email. -/
def noEmailCarol : PartialCandidate := { name := some "Carol" }

/-- Another submitted record without any email. -/
def noEmailDave : PartialCandidate := { name := some "Dave" }

/-- C10: the `count` returned by `POST /candidates/load` is the size of
the merged registry (which the endpoint also emits and returns), not the
size of the submitted list: submitting two email-less records onto a
one-record store yields `count = 1` while two records were submitted. -/
theorem load_count_is_registry_size :
    (∀ (s : Store) (cs : List PartialCandidate),
        (load_candidates s cs).count = (CandidateStore.load s cs).length ∧
        (load_candidates s cs).store = CandidateStore.load s cs) ∧
    (load_candidates [adaStored] [noEmailCarol, noEmailDave]).count = 1 ∧
    [noEmailCarol, noEmailDave].length = 2 :=
  ⟨fun _ _ => ⟨rfl, rfl⟩, rfl, rfl⟩

/-- C6: `update_status` on an unknown email returns `none` — mapped by
the PATCH endpoint to a 404 — leaves the registry completely unchanged
and creates no record; on a known email it returns the record and
changes exactly that record's `status` field, preserving the store's
size and every other record. -/
theorem update_status_contract :
    ∀ (s : Store) (email status : String),
      (storeFind s email = none →
        CandidateStore.update_status s email status = (none, s) ∧
        (update_candidate_status s email status).resp = .error ⟨404, "candidate not found"⟩ ∧
        (update_candidate_status s email status).store = s ∧
        (update_candidate_status s email status).events = []) ∧
      (∀ r, storeFind s email = some r →
        (CandidateStore.update_status s email status).1 = some { r with status := status } ∧
        (CandidateStore.update_status s email status).2 =
          s.map (fun x => if x.email == email then { x with status := status } else x) ∧
        (CandidateStore.update_status s email status).2.length = s.length ∧
        (∀ x ∈ s, x.email ≠ email → x ∈ (CandidateStore.update_status s email status).2) ∧
        (update_candidate_status s email status).resp = .ok { r with status := status } ∧
        (update_candidate_status s email status).events = [.statusEmail email status]) := by
  intro s email status
  constructor
  · intro h
    refine ⟨?_, ?_, ?_, ?_⟩ <;>
      simp only [CandidateStore.update_status, update_candidate_status, h]
  · intro r h
    have hmap : (CandidateStore.update_status s email status).2 =
        s.map (fun x => if x.email == email then { x with status := status } else x) := by
      simp only [CandidateStore.update_status, h]
    refine ⟨?_, hmap, ?_, ?_, ?_, ?_⟩
    · simp only [CandidateStore.update_status, h]
    · rw [hmap, List.length_map]
    · intro x hx hne
      rw [hmap]
      refine List.mem_map.mpr ⟨x, hx, ?_⟩
      have hbe : (x.email == email) = false := by
        simp [hne]
      simp [hbe]
    · simp only [update_candidate_status, CandidateStore.update_status, h]
    · simp only [update_candidate_status, CandidateStore.update_status, h]

/-- C6 witness: both branches of `update_status_contract` applied at a
concrete store. -/
theorem update_status_contract_witness :
    CandidateStore.update_status [adaStored] "zz@x.com" "Accepted" = (none, [adaStored]) ∧
    (CandidateStore.update_status [adaStored] "ada@x.com" "Accepted").1 =
      some { adaStored with status := "Accepted" } :=
  ⟨((update_status_contract [adaStored] "zz@x.com" "Accepted").1 rfl).1,
   ((update_status_contract [adaStored] "ada@x.com" "Accepted").2 adaStored rfl).1⟩

/-- A provider whose `send_email` succeeds with the return format of
`CommunicationTools.send_email` (`communication_tools.py:86`, a plain
English sentence, never valid JSON) and which — like the repository's
`CommunicationTools` class — has no working reply-lookup or scheduling
call. -/
def providerSendOk : FlowEnv := {
  hash2 := fun _ _ => 0
  send := fun dest _ _ _ => .ok ("Email successfully sent to " ++ dest ++ ". Message ID: m1")
  searchReplies := fun _ => .error .attributeError
  schedule := fun _ _ _ _ _ => .error (.runtimeError "calendar") }

/-- C7 counterexample: with a provider whose send succeeds with the
repository provider's documented return format, `POST /outreach/send`
returns for the recipient the fallback `{"ok": False, "to": email}` —
which has no `refToken` key and does not carry the token string "0"
anywhere — so the per-recipient result does not include the recipient's
correlation token. -/
theorem send_result_lacks_token :
    (send_outreach providerSendOk "Hi" "Hi \x7bname\x7d" [adaPartial] []).resp =
      .ok [.dict [("ok", .bool false), ("to", .str "ada@x.com")]] ∧
    refTokenSendOutreach providerSendOk.hash2 "ada@x.com" "Hi" = "0" ∧
    PyVal.hasKey (.dict [("ok", .bool false), ("to", .str "ada@x.com")]) "refToken" = false ∧
    ((PyVal.dict [("ok", .bool false), ("to", .str "ada@x.com")]).topStrs).contains "0" = false :=
  ⟨rfl, rfl, rfl, rfl⟩

/-- On an error-free run the loop produces exactly one result per
candidate with a truthy email. -/
theorem sendOutreachLoop_count (env : FlowEnv) (subject template : String)
    (cs : List PartialCandidate) (s : Store) (evs : List Event) (results : List PyVal) :
    (sendOutreachLoop env subject template cs s evs results).2.2.2 = none →
    (sendOutreachLoop env subject template cs s evs results).2.2.1.length =
      results.length + cs.countP (fun c => (truthyOpt c.email).isSome) := by
  induction cs generalizing s evs results with
  | nil =>
    intro _
    simp [sendOutreachLoop]
  | cons c t ih =>
    intro hnone
    rcases hem : truthyOpt c.email with _ | em
    · simp only [sendOutreachLoop, hem] at hnone ⊢
      rw [ih s evs results hnone]
      simp [List.countP_cons, hem]
    · rcases hfmt : pyFormat template ((truthyOpt c.name).getD "there") with e | body
      · exfalso
        simp [sendOutreachLoop, hem, hfmt] at hnone
      · rcases hsend : env.send em subject body (refTokenSendOutreach env.hash2 em subject)
          with e | res
        · exfalso
          simp [sendOutreachLoop, hem, hfmt, hsend] at hnone
        · simp only [sendOutreachLoop, hem, hfmt, hsend] at hnone ⊢
          rw [ih _ _ _ hnone]
          simp [List.countP_cons, hem, List.length_append]
          omega

/-- C7 (amended): `POST /outreach/send` with an empty candidate list
fails with 400 and changes no state.  With a non-empty list, at every
position of its loop a candidate without an email is skipped outright,
and a candidate with an email gets exactly one send and one appended
per-recipient result that is exactly the JSON-parse of the provider's
return, or the fallback `{"ok": False, "to": email}` when that return is
not valid JSON (as with the repository's provider, which returns a plain
sentence) — the server never adds the correlation token to the result —
so an error-free run responds with one result per emailed candidate. -/
theorem send_outreach_contract :
    (∀ (env : FlowEnv) (subject template : String) (s : Store),
        send_outreach env subject template [] s =
          ⟨.error (.http ⟨400, "candidates required"⟩), s, []⟩) ∧
    (∀ (env : FlowEnv) (subject template : String) (c : PartialCandidate)
       (cs : List PartialCandidate) (s : Store) (evs : List Event) (results : List PyVal),
        truthyOpt c.email = none →
        sendOutreachLoop env subject template (c :: cs) s evs results =
          sendOutreachLoop env subject template cs s evs results) ∧
    (∀ (env : FlowEnv) (subject template : String) (c : PartialCandidate)
       (cs : List PartialCandidate) (em body res : String) (s : Store)
       (evs : List Event) (results : List PyVal),
        truthyOpt c.email = some em →
        pyFormat template ((truthyOpt c.name).getD "there") = .ok body →
        env.send em subject body (refTokenSendOutreach env.hash2 em subject) = .ok res →
        sendOutreachLoop env subject template (c :: cs) s evs results =
          sendOutreachLoop env subject template cs
            (CandidateStore.set_ref
              (CandidateStore.load s
                [{ name := some ((truthyOpt c.name).getD "there"), email := some em,
                   status := some "Contacted" }])
              em (refTokenSendOutreach env.hash2 em subject))
            (evs ++ [.statusEmail em "Contacted"])
            (results ++
              [(jsonLoads res).getD (.dict [("ok", .bool false), ("to", .str em)])])) ∧
    (∀ (env : FlowEnv) (subject template : String) (c : PartialCandidate)
       (cs : List PartialCandidate) (s : Store) (results : List PyVal),
        (send_outreach env subject template (c :: cs) s).resp = .ok results →
        results.length = (c :: cs).countP (fun x => (truthyOpt x.email).isSome)) := by
  refine ⟨fun env subject template s => rfl, ?_, ?_, ?_⟩
  · intro env subject template c cs s evs results hem
    simp only [sendOutreachLoop, hem]
  · intro env subject template c cs em body res s evs results hem hfmt hsend
    simp only [sendOutreachLoop, hem, hfmt, hsend]
  · intro env subject template c cs s results hresp
    have hcount := sendOutreachLoop_count env subject template (c :: cs) s [] []
    rcases hloop : sendOutreachLoop env subject template (c :: cs) s [] []
      with ⟨s', evs', res', err⟩
    rw [hloop] at hcount
    cases err with
    | some e =>
      exfalso
      simp only [send_outreach, hloop] at hresp
      exact Except.noConfusion hresp
    | none =>
      simp only [send_outreach, hloop] at hresp
      injection hresp with h
      subst h
      simpa using hcount rfl

/-- A provider whose send returns a valid JSON object. -/
def providerJson : FlowEnv := {
  hash2 := fun _ _ => 0
  send := fun _ _ _ _ => .ok "\x7b\"ok\": true\x7d"
  searchReplies := fun _ => .error .attributeError
  schedule := fun _ _ _ _ _ => .error (.runtimeError "calendar") }

/-- C7 witness: all four parts of `send_outreach_contract` at concrete
inputs — the 400 branch, the email-less skip, the send step in its
JSON-parse branch, and the one-result-per-emailed-candidate count on a
three-candidate request (one of them email-less) against the
sentence-returning provider. -/
theorem send_outreach_contract_witness :
    send_outreach providerSendOk "Hi" "Hi \x7bname\x7d" [] [adaStored] =
      ⟨.error (.http ⟨400, "candidates required"⟩), [adaStored], []⟩ ∧
    sendOutreachLoop providerSendOk "Hi" "Hi \x7bname\x7d" [noEmailCarol, bobPartial]
        [] [] [] =
      sendOutreachLoop providerSendOk "Hi" "Hi \x7bname\x7d" [bobPartial] [] [] [] ∧
    sendOutreachLoop providerJson "Hi" "Hi \x7bname\x7d" [bobPartial] [] [] [] =
      sendOutreachLoop providerJson "Hi" "Hi \x7bname\x7d" []
        (CandidateStore.set_ref
          (CandidateStore.load []
            [{ name := some "Bob", email := some "bob@x.com", status := some "Contacted" }])
          "bob@x.com" "0")
        [.statusEmail "bob@x.com" "Contacted"]
        [.dict [("ok", .bool true)]] ∧
    ([PyVal.dict [("ok", .bool false), ("to", .str "ada@x.com")],
      PyVal.dict [("ok", .bool false), ("to", .str "bob@x.com")]] : List PyVal).length =
      [adaPartial, noEmailCarol, bobPartial].countP (fun x => (truthyOpt x.email).isSome) :=
  ⟨send_outreach_contract.1 providerSendOk "Hi" "Hi \x7bname\x7d" [adaStored],
   send_outreach_contract.2.1 providerSendOk "Hi" "Hi \x7bname\x7d" noEmailCarol
     [bobPartial] [] [] [] rfl,
   send_outreach_contract.2.2.1 providerJson "Hi" "Hi \x7bname\x7d" bobPartial []
     "bob@x.com" "Hi Bob" "\x7b\"ok\": true\x7d" [] [] [] rfl rfl rfl,
   send_outreach_contract.2.2.2 providerSendOk "Hi" "Hi \x7bname\x7d" adaPartial
     [noEmailCarol, bobPartial] []
     [PyVal.dict [("ok", .bool false), ("to", .str "ada@x.com")],
      PyVal.dict [("ok", .bool false), ("to", .str "bob@x.com")]] rfl⟩

/-- Flow parameters with a template whose replacement field is not
`name`. -/
def paramsBadTemplate : RunParams := {
  subject := "Hi"
  template := "Hello \x7bother\x7d"
  candidates := [adaPartial, bobPartial]
  windowMinutes := 1
  pollInterval := 1
  summary := "Introductory Meeting"
  description := "Intro call"
  duration := 30
  tz := none }

/-- C5 counterexample: with the template `Hello {other}` the rendering
of the body raises `KeyError` and the send step raises instead of
proceeding with the unrendered template: `/outreach/send` aborts with
the exception before any send, state change or event, and the flow task
aborts with only its opening log event and no `done`. -/
theorem template_error_aborts_send :
    send_outreach providerSendOk "Hi" "Hello \x7bother\x7d" [adaPartial] [] =
      ⟨.error (.py (.keyError "other")), [], []⟩ ∧
    (flowTask providerSendOk paramsBadTemplate []).err = some (.keyError "other") ∧
    (flowTask providerSendOk paramsBadTemplate []).events =
      [.log "[Outreach] Starting outreach flow"] ∧
    doneCount (flowTask providerSendOk paramsBadTemplate []).events = 0 :=
  ⟨rfl, rfl, rfl, rfl⟩

/-- C5 (amended): a failure of the placeholder substitution is not
caught anywhere: in `/outreach/send` the exception escapes the handler
(500) before any send, and in the flow task it aborts the run after the
opening log event; in neither place does the code fall back to the
unrendered template string. -/
theorem template_error_propagates :
    (∀ (env : FlowEnv) (subject template : String) (c : PartialCandidate)
       (cs : List PartialCandidate) (em : String) (s : Store) (e : PyErr),
        truthyOpt c.email = some em →
        pyFormat template ((truthyOpt c.name).getD "there") = .error e →
        send_outreach env subject template (c :: cs) s = ⟨.error (.py e), s, []⟩) ∧
    (∀ (env : FlowEnv) (p : RunParams) (s0 : Store) (c : PartialCandidate)
       (cs : List PartialCandidate) (em : String) (e : PyErr),
        p.candidates = c :: cs →
        truthyOpt c.email = some em →
        pyFormat p.template ((truthyOpt c.name).getD "there") = .error e →
        flowTask env p s0 =
          ⟨[.log "[Outreach] Starting outreach flow"], s0, [], some e, false⟩) := by
  constructor
  · intro env subject template c cs em s e hem hfmt
    simp only [send_outreach, sendOutreachLoop, hem, hfmt]
  · intro env p s0 c cs em e hcand hem hfmt
    simp only [flowTask, hcand, sendPhase, hem, hfmt]

/-- C5 witness: both parts of `template_error_propagates` at concrete
inputs. -/
theorem template_error_propagates_witness :
    send_outreach providerSendOk "Hi" "Hello \x7bother\x7d" [bobPartial] [adaStored] =
      ⟨.error (.py (.keyError "other")), [adaStored], []⟩ ∧
    flowTask providerSendOk paramsBadTemplate [] =
      ⟨[.log "[Outreach] Starting outreach flow"], [], [], some (.keyError "other"), false⟩ :=
  ⟨template_error_propagates.1 providerSendOk "Hi" "Hello \x7bother\x7d" bobPartial []
     "bob@x.com" [adaStored] (.keyError "other") rfl rfl,
   template_error_propagates.2 providerSendOk paramsBadTemplate [] adaPartial [bobPartial]
     "ada@x.com" (.keyError "other") rfl rfl rfl⟩

/-- A provider whose every send raises (`RuntimeError`, as
`CommunicationTools.send_email` raises on a Gmail `HttpError`). -/
def envSendRaises : FlowEnv := {
  hash2 := fun _ _ => 0
  send := fun _ _ _ _ => .error (.runtimeError "Gmail API error")
  searchReplies := fun _ => .error .attributeError
  schedule := fun _ _ _ _ _ => .error (.runtimeError "calendar") }

/-- A provider whose sends succeed but whose reply-lookup raises for the
first candidate's token ("1") while the second candidate's token ("2")
has a reply waiting that would be scheduled. -/
def envReplyLookupRaises : FlowEnv := {
  hash2 := fun e _ => if e = "ada@x.com" then 1 else 2
  send := fun dest _ _ _ => .ok ("Email successfully sent to " ++ dest ++ ". Message ID: m1")
  searchReplies := fun r => if r = "1" then .error .attributeError else .ok ["Re: reply"]
  schedule := fun _ _ _ _ _ => .ok "\x7b\"eventId\": \"ev1\"\x7d" }

/-- Flow parameters for two candidates with a well-formed template. -/
def paramsTwoCandidates : RunParams := {
  subject := "Hi"
  template := "Hi \x7bname\x7d"
  candidates := [adaPartial, bobPartial]
  windowMinutes := 1
  pollInterval := 1
  summary := "Introductory Meeting"
  description := "Intro call"
  duration := 30
  tz := none }

/-- A third partial candidate with a name and an email. -/
def caraPartial : PartialCandidate := { name := some "Cara", email := some "cara@x.com" }

/-- A provider whose send succeeds for the first candidate but raises
for the second. -/
def envSendRaisesBob : FlowEnv := {
  hash2 := fun _ _ => 0
  send := fun dest _ _ _ =>
    if dest = "bob@x.com" then .error (.runtimeError "Gmail API error")
    else .ok ("Email successfully sent to " ++ dest ++ ". Message ID: m1")
  searchReplies := fun _ => .ok []
  schedule := fun _ _ _ _ _ => .error (.runtimeError "calendar") }

/-- A provider whose sends succeed, whose reply-lookup always finds a
reply, and whose schedule call raises (`RuntimeError`, as
`CommunicationTools.schedule_meeting` raises on a Calendar
`HttpError`). -/
def envScheduleRaises : FlowEnv := {
  hash2 := fun e _ => if e = "ada@x.com" then 1 else 2
  send := fun dest _ _ _ => .ok ("Email successfully sent to " ++ dest ++ ". Message ID: m1")
  searchReplies := fun _ => .ok ["Re: reply"]
  schedule := fun _ _ _ _ _ => .error (.runtimeError "Calendar API error") }

/-- Flow parameters for three candidates with a well-formed template. -/
def paramsThreeCandidates : RunParams := {
  subject := "Hi"
  template := "Hi \x7bname\x7d"
  candidates := [adaPartial, bobPartial, caraPartial]
  windowMinutes := 1
  pollInterval := 1
  summary := "Introductory Meeting"
  description := "Intro call"
  duration := 30
  tz := none }

/-- C2 counterexample: (a) a provider error while sending to the first
candidate aborts the whole run — the second candidate is never
contacted, the store is untouched and no `done` is emitted; (b) the same
mid-run: when the send to the second of three candidates raises, the
first stays contacted but the third is never processed; (c) a
reply-lookup exception for the first candidate aborts the polling loop —
the second candidate's waiting reply is never scheduled (zero `Accepted`
events) and no `done` is emitted; (d) likewise a schedule exception
after the first candidate's reply aborts the polling loop with zero
`Accepted` events and no `done`. -/
theorem provider_error_aborts_run :
    (flowTask envSendRaises paramsTwoCandidates []).err =
      some (.runtimeError "Gmail API error") ∧
    ((flowTask envSendRaises paramsTwoCandidates []).events.filter
        (Event.isContactedEmail "bob@x.com")).length = 0 ∧
    (flowTask envSendRaises paramsTwoCandidates []).store = [] ∧
    doneCount (flowTask envSendRaises paramsTwoCandidates []).events = 0 ∧
    (flowTask envSendRaisesBob paramsThreeCandidates []).err =
      some (.runtimeError "Gmail API error") ∧
    ((flowTask envSendRaisesBob paramsThreeCandidates []).events.filter
        (Event.isContactedEmail "ada@x.com")).length = 1 ∧
    ((flowTask envSendRaisesBob paramsThreeCandidates []).events.filter
        (Event.isContactedEmail "cara@x.com")).length = 0 ∧
    doneCount (flowTask envSendRaisesBob paramsThreeCandidates []).events = 0 ∧
    (flowTask envReplyLookupRaises paramsTwoCandidates []).err = some .attributeError ∧
    ((flowTask envReplyLookupRaises paramsTwoCandidates []).events.filter
        (Event.isStatus "Accepted")).length = 0 ∧
    doneCount (flowTask envReplyLookupRaises paramsTwoCandidates []).events = 0 ∧
    (flowTask envScheduleRaises paramsTwoCandidates []).err =
      some (.runtimeError "Calendar API error") ∧
    ((flowTask envScheduleRaises paramsTwoCandidates []).events.filter
        (Event.isStatus "Accepted")).length = 0 ∧
    doneCount (flowTask envScheduleRaises paramsTwoCandidates []).events = 0 :=
  ⟨rfl, rfl, rfl, rfl, rfl, rfl, rfl, rfl, rfl, rfl, rfl, rfl, rfl, rfl⟩

/-- C2 (amended): (a) an exception from the provider's send call for any
candidate aborts the sending loop at that point — at any position in the
loop (arbitrary prior store, events and enriched list) the remaining
candidates are not processed; (b) a sending-step exception makes the
whole flow run end with that exception and zero `done` events; (c) an
exception from the reply-lookup call for an unresolved candidate aborts
the whole polling pass and hence the loop, leaving every remaining
candidate unpolled; (d) the same for an exception from the schedule call
made after a candidate's reply is found.  (Only a failure to parse a
returned result as JSON is tolerated per candidate.) -/
theorem provider_error_semantics :
    (∀ (env : FlowEnv) (subject template : String) (c : PartialCandidate)
       (cs : List PartialCandidate) (s : Store) (evs : List Event)
       (acc : List EnrichedC) (em body : String) (er : PyErr),
        truthyOpt c.email = some em →
        pyFormat template ((truthyOpt c.name).getD "there") = .ok body →
        env.send em subject body (refTokenRunFlow env.hash2 em subject) = .error er →
        sendPhase env subject template (c :: cs) s evs acc = ⟨s, evs, acc, some er⟩) ∧
    (∀ (env : FlowEnv) (p : RunParams) (s0 : Store) (er : PyErr),
        (sendPhase env p.subject p.template p.candidates s0
            [.log "[Outreach] Starting outreach flow"] []).err = some er →
        (flowTask env p s0).err = some er ∧
        doneCount (flowTask env p s0).events = 0) ∧
    (∀ (env : FlowEnv) (p : RunParams) (e : EnrichedC) (rest : List EnrichedC)
       (s : Store) (evs : List Event) (sch : List PyVal) (er : PyErr),
        e.resolved = false →
        env.searchReplies e.refToken = .error er →
        pollPass env p (e :: rest) s evs sch = ⟨e :: rest, s, evs, sch, some er⟩ ∧
        (∀ n, (pollLoop env p (n + 1) (e :: rest) s evs sch).err = some er)) ∧
    (∀ (env : FlowEnv) (p : RunParams) (e : EnrichedC) (rest : List EnrichedC)
       (s : Store) (evs : List Event) (sch : List PyVal) (er : PyErr)
       (m : String) (ms : List String),
        e.resolved = false →
        env.searchReplies e.refToken = .ok (m :: ms) →
        env.schedule [e.email] p.summary p.description p.duration p.tz = .error er →
        pollPass env p (e :: rest) s evs sch =
          ⟨e :: rest, s, evs ++ [.log ("[Outreach] Reply detected from " ++ e.email)],
           sch, some er⟩ ∧
        (∀ n, (pollLoop env p (n + 1) (e :: rest) s evs sch).err = some er)) := by
  refine ⟨?_, ?_, ?_, ?_⟩
  · intro env subject template c cs s evs acc em body er hem hfmt hsend
    simp only [sendPhase, hem, hfmt, hsend]
  · intro env p s0 er hsperr
    have hdc := sendPhase_doneCount env p.subject p.template p.candidates s0
      [Event.log "[Outreach] Starting outreach flow"] []
    rcases hsp : sendPhase env p.subject p.template p.candidates s0
        [Event.log "[Outreach] Starting outreach flow"] [] with ⟨st, evts, enr, err⟩
    rw [hsp] at hdc hsperr
    change err = some er at hsperr
    subst hsperr
    simp only [flowTask, hsp]
    refine ⟨trivial, ?_⟩
    simpa [doneCount, Event.isDone] using hdc
  · intro env p e rest s evs sch er hres hsr
    have hpass : pollPass env p (e :: rest) s evs sch = ⟨e :: rest, s, evs, sch, some er⟩ := by
      simp only [pollPass, hres, Bool.false_eq_true, if_false, hsr]
    refine ⟨hpass, fun n => ?_⟩
    simp only [pollLoop, hpass]
  · intro env p e rest s evs sch er m ms hres hsr hsch
    have hpass : pollPass env p (e :: rest) s evs sch =
        ⟨e :: rest, s, evs ++ [.log ("[Outreach] Reply detected from " ++ e.email)],
         sch, some er⟩ := by
      simp only [pollPass, hres, Bool.false_eq_true, if_false, hsr, hsch]
    refine ⟨hpass, fun n => ?_⟩
    simp only [pollLoop, hpass]

/-- C2 witness: all four parts of `provider_error_semantics` at concrete
inputs — the sending-step abort exercised mid-loop with a non-empty
accumulator, the flow-level abort, the reply-lookup abort and the
schedule abort. -/
theorem provider_error_semantics_witness :
    sendPhase envSendRaisesBob "Hi" "Hi \x7bname\x7d" [bobPartial, caraPartial]
        [adaStored] [.statusEmail "ada@x.com" "Contacted"]
        [⟨"Ada", "ada@x.com", "0", .null, false⟩] =
      ⟨[adaStored], [.statusEmail "ada@x.com" "Contacted"],
       [⟨"Ada", "ada@x.com", "0", .null, false⟩], some (.runtimeError "Gmail API error")⟩ ∧
    ((flowTask envSendRaises paramsTwoCandidates []).err =
        some (.runtimeError "Gmail API error") ∧
      doneCount (flowTask envSendRaises paramsTwoCandidates []).events = 0) ∧
    pollPass envReplyLookupRaises paramsTwoCandidates
        [⟨"Ada", "ada@x.com", "1", .null, false⟩] [] [] [] =
      ⟨[⟨"Ada", "ada@x.com", "1", .null, false⟩], [], [], [], some .attributeError⟩ ∧
    pollPass envScheduleRaises paramsTwoCandidates
        [⟨"Ada", "ada@x.com", "1", .null, false⟩] [] [] [] =
      ⟨[⟨"Ada", "ada@x.com", "1", .null, false⟩], [],
       [.log "[Outreach] Reply detected from ada@x.com"], [],
       some (.runtimeError "Calendar API error")⟩ :=
  ⟨provider_error_semantics.1 envSendRaisesBob "Hi" "Hi \x7bname\x7d" bobPartial [caraPartial]
     [adaStored] [.statusEmail "ada@x.com" "Contacted"]
     [⟨"Ada", "ada@x.com", "0", .null, false⟩] "bob@x.com" "Hi Bob"
     (.runtimeError "Gmail API error") rfl rfl rfl,
   provider_error_semantics.2.1 envSendRaises paramsTwoCandidates []
     (.runtimeError "Gmail API error") rfl,
   (provider_error_semantics.2.2.1 envReplyLookupRaises paramsTwoCandidates
      ⟨"Ada", "ada@x.com", "1", .null, false⟩ [] [] [] [] .attributeError rfl rfl).1,
   (provider_error_semantics.2.2.2 envScheduleRaises paramsTwoCandidates
      ⟨"Ada", "ada@x.com", "1", .null, false⟩ [] [] [] []
      (.runtimeError "Calendar API error") "Re: reply" [] rfl rfl rfl).1⟩

/-- The flag/`done` facts about one `flow_task` run, on every exit
path. -/
theorem flowTask_props (env : FlowEnv) (p : RunParams) (s0 : Store) :
    (flowTask env p s0).activeAfter = false ∧
    doneCount (flowTask env p s0).events =
      (if (flowTask env p s0).err = none then 1 else 0) := by
  have hsend := sendPhase_doneCount env p.subject p.template p.candidates s0
    [Event.log "[Outreach] Starting outreach flow"] []
  rcases hsp : sendPhase env p.subject p.template p.candidates s0
      [Event.log "[Outreach] Starting outreach flow"] [] with ⟨st, evts, enr, err⟩
  rw [hsp] at hsend
  cases err with
  | some e =>
    simp only [flowTask, hsp]
    refine ⟨trivial, ?_⟩
    rw [if_neg (by simp : ¬ ((some e : Option PyErr) = none))]
    simpa [doneCount, Event.isDone] using hsend
  | none =>
    have hpoll := pollLoop_doneCount env p (numPasses (p.windowMinutes * 60) p.pollInterval)
      enr st (evts ++ [candidatesEvent enr]) []
    rcases hpl : pollLoop env p (numPasses (p.windowMinutes * 60) p.pollInterval)
        enr st (evts ++ [candidatesEvent enr]) [] with ⟨enr2, st2, evts2, sch2, err2⟩
    rw [hpl] at hpoll
    have hc : doneCount (evts ++ [candidatesEvent enr]) = 0 := by
      rw [doneCount_append, hsend]
      simp [doneCount, Event.isDone, candidatesEvent]
    cases err2 with
    | some e =>
      simp only [flowTask, hsp, hpl]
      refine ⟨trivial, ?_⟩
      rw [if_neg (by simp : ¬ ((some e : Option PyErr) = none))]
      simp [hpoll, hc]
    | none =>
      simp only [flowTask, hsp, hpl]
      refine ⟨trivial, ?_⟩
      rw [doneCount_append, hpoll, hc]
      simp [doneCount, Event.isDone]

/-- C1 counterexample: a run started via `POST /outreach/run-flow` in
which the send step raises terminates with zero `done` events — not
exactly one — even though the flag is cleared. -/
theorem run_flow_exception_drops_done :
    (flowTask envSendRaises paramsTwoCandidates []).err =
      some (.runtimeError "Gmail API error") ∧
    doneCount (flowTask envSendRaises paramsTwoCandidates []).events = 0 ∧
    (flowTask envSendRaises paramsTwoCandidates []).activeAfter = false :=
  ⟨rfl, rfl, rfl⟩

/-- C1 (amended): a `/run` run always ends with exactly one `done` as
its last event and the flag false immediately after, on every exit path
including an orchestrator exception (the `done` emission is in its
`finally`); a `/outreach/run-flow` run always clears the flag on every
exit path, but publishes exactly one `done` only when no exception
escaped a send, reply-lookup or schedule step — on an exception it
publishes none (its `done` emission is inside the `try`). -/
theorem run_termination :
    (∀ orch : List OrchEvent,
        doneCount (run_in_thread orch).1 = 1 ∧
        (run_in_thread orch).2 = false ∧
        (run_in_thread orch).1.getLast? = some (.done true none)) ∧
    (∀ (env : FlowEnv) (p : RunParams) (s0 : Store), 0 < p.pollInterval →
        (flowTask env p s0).activeAfter = false ∧
        doneCount (flowTask env p s0).events =
          (if (flowTask env p s0).err = none then 1 else 0)) := by
  refine ⟨fun orch => ⟨?_, rfl, ?_⟩, fun env p s0 _ => flowTask_props env p s0⟩
  · rw [run_in_thread, doneCount_append, doneCount_map_orch]
    rfl
  · simp [run_in_thread]

/-- A provider whose sends succeed and whose reply-lookup finds nothing,
so a flow run reaches its deadline normally. -/
def providerQuiet : FlowEnv := {
  hash2 := fun _ _ => 0
  send := fun dest _ _ _ => .ok ("Email successfully sent to " ++ dest ++ ". Message ID: m1")
  searchReplies := fun _ => .ok []
  schedule := fun _ _ _ _ _ => .error (.runtimeError "calendar") }

/-- C1 witness: `run_termination` applied at a concrete orchestrator
trace and at a concrete flow run (poll interval 1). -/
theorem run_termination_witness :
    (doneCount (run_in_thread (runOrchestratorDummy "AI")).1 = 1 ∧
     (run_in_thread (runOrchestratorDummy "AI")).2 = false ∧
     (run_in_thread (runOrchestratorDummy "AI")).1.getLast? = some (.done true none)) ∧
    0 < paramsTwoCandidates.pollInterval ∧
    ((flowTask providerQuiet paramsTwoCandidates []).activeAfter = false ∧
     doneCount (flowTask providerQuiet paramsTwoCandidates []).events =
       (if (flowTask providerQuiet paramsTwoCandidates []).err = none then 1 else 0)) :=
  ⟨run_termination.1 (runOrchestratorDummy "AI"), by decide,
   run_termination.2 providerQuiet paramsTwoCandidates [] (by decide)⟩

/-! ### C4: the registry is the spec's last-write-wins merge -/

theorem truthyOpt_some_of_ne {v : String} (h : v ≠ "") : truthyOpt (some v) = some v := by
  simp [truthyOpt, h]

theorem truthyOpt_ne_empty {o : Option String} {v : String}
    (h : truthyOpt o = some v) : v ≠ "" := by
  cases o with
  | none => simp [truthyOpt] at h
  | some s =>
    simp only [truthyOpt] at h
    by_cases hs : s = ""
    · simp [hs] at h
    · simp only [hs, if_false] at h
      cases h
      exact hs

theorem find?_map_toSpecRec (s : Store) (em : String) :
    (s.map toSpecRec).find? (fun r => r.email == em) =
      (s.find? (fun r => r.email == em)).map toSpecRec := by
  induction s with
  | nil => rfl
  | cons a t ih =>
    cases hpa : a.email == em with
    | true =>
      have hpa' : ((toSpecRec a).email == em) = true := hpa
      simp [List.find?_cons, hpa, hpa']
    | false =>
      have hpa' : ((toSpecRec a).email == em) = false := hpa
      simp [List.find?_cons, hpa, hpa', ih]

theorem any_eq_find?_isSome (s : Store) (em : String) :
    s.any (fun r => r.email == em) = (s.find? (fun r => r.email == em)).isSome := by
  induction s with
  | nil => rfl
  | cons a t ih =>
    cases hpa : a.email == em <;> simp [List.any_cons, List.find?_cons, hpa, ih]

theorem loadOne_toSpec (s : Store) (c : PartialCandidate) :
    (CandidateStore.loadOne s c).map toSpecRec = specMergeOne (s.map toSpecRec) c := by
  rcases hem : truthyOpt c.email with _ | em
  · simp only [CandidateStore.loadOne, specMergeOne, hem]
  · simp only [CandidateStore.loadOne, specMergeOne, hem, storeFind]
    rw [find?_map_toSpecRec]
    rcases hf : s.find? (fun r => r.email == em) with _ | r
    · -- first insert
      have hany : s.any (fun x => x.email == em) = false := by
        rw [any_eq_find?_isSome, hf]
        rfl
      simp only [hf, Option.map_none, storePut, hany, Bool.false_eq_true, if_false,
        List.map_append, List.map_cons, List.map_nil]
      congr 2
      simp only [toSpecRec, SpecRec.mk.injEq]
      refine ⟨?_, trivial, ?_, ?_⟩
      · -- name
        rcases hn : truthyOpt c.name with _ | v
        · simp [hn, truthyOpt]
        · simp [hn, truthyOpt_some_of_ne (truthyOpt_ne_empty hn)]
      · -- expertise
        rcases hx : truthyOpt c.expertise with _ | v
        · simp [hx]
        · simp [hx, truthyOpt_ne_empty hx]
      · -- status
        rcases ht : truthyOpt c.status with _ | v
        · simp [ht]
        · simp [ht, truthyOpt_ne_empty ht]
    · -- merge into existing
      have hany : s.any (fun x => x.email == em) = true := by
        rw [any_eq_find?_isSome, hf]
        rfl
      simp only [hf, Option.map_some, storePut, hany, if_true, List.map_map]
      apply List.map_congr_left
      intro x _
      simp only [Function.comp_apply]
      have hxe : ((toSpecRec x).email == em) = (x.email == em) := rfl
      cases hx : x.email == em with
      | false => simp [hx, hxe]
      | true =>
        simp only [hx, hxe, if_true]
        simp only [toSpecRec, SpecRec.mk.injEq]
        refine ⟨?_, trivial, ?_, ?_⟩
        · rcases hn : truthyOpt c.name with _ | v
          · simp [specMergeField, hn]
          · simp [specMergeField, hn, truthyOpt_some_of_ne (truthyOpt_ne_empty hn)]
        · rcases hxp : truthyOpt c.expertise with _ | v
          · simp [specMergeField, hxp]
          · simp [specMergeField, hxp, truthyOpt_ne_empty hxp]
        · rcases ht : truthyOpt c.status with _ | v
          · simp [specMergeField, ht]
          · simp [specMergeField, ht, truthyOpt_ne_empty ht]

theorem load_toSpec (recs : List PartialCandidate) (s : Store) :
    (CandidateStore.load s recs).map toSpecRec = recs.foldl specMergeOne (s.map toSpecRec) := by
  induction recs generalizing s with
  | nil => rfl
  | cons c t ih =>
    show (CandidateStore.load (CandidateStore.loadOne s c) t).map toSpecRec =
      t.foldl specMergeOne (specMergeOne (s.map toSpecRec) c)
    rw [ih (CandidateStore.loadOne s c), loadOne_toSpec]

theorem loadCalls_eq_flatten (calls : List (List PartialCandidate)) :
    loadCalls calls = CandidateStore.load [] calls.flatten := by
  suffices h : ∀ s, calls.foldl CandidateStore.load s = CandidateStore.load s calls.flatten by
    exact h []
  induction calls with
  | nil => intro s; rfl
  | cons a t ih =>
    intro s
    simp only [List.foldl_cons, List.flatten_cons]
    rw [ih]
    simp [CandidateStore.load, List.foldl_append]

/-- C4: every sequence of `load` calls produces exactly the
specification's field-wise last-write-wins merge, keyed by email, of the
flat sequence of submitted records (viewed through the abstraction that
identifies the spec's "empty or missing" field values): new non-empty
values overwrite, empty/missing values keep the prior value, `status`
defaults to `Sourced` on first insert, records without an email are
never stored; in particular loading `{name:"A", status:"Sourced"}` then
`{name:"", expertise:"ML"}` for one email yields
`{name:"A", expertise:"ML", status:"Sourced"}`. -/
theorem load_is_lww_merge :
    (∀ calls : List (List PartialCandidate),
        (loadCalls calls).map toSpecRec = specLWW calls.flatten) ∧
    loadCalls [[{ name := some "A", email := some "x@e.com", status := some "Sourced" }],
               [{ name := some "", email := some "x@e.com", expertise := some "ML" }]] =
      [{ name := some "A", email := "x@e.com", expertise := "ML", status := "Sourced" }] := by
  refine ⟨fun calls => ?_, rfl⟩
  rw [loadCalls_eq_flatten, load_toSpec]
  rfl

end HackOrch
